import Mathlib

/-
Verification of the provisioning subsystem of the HA-device_manager
repository.  The Python sources under
custom_components/device_manager/provisioning/ are shallowly embedded:
pure helpers become Lean functions, the orchestrator's mutable state
(device dicts, the module-level success counter, the address cache) is
threaded explicitly, and exceptions are modelled with an `Option PyExc`
component.  Each definition is annotated with the source file and lines
it embeds.
-/

namespace DeviceManager

/-! ## Python string primitives (ASCII fragment used by the sources) -/

/-- Embedding of `str.lower` for one ASCII character. -/
def asciiLowerChar (c : Char) : Char :=
  if 'A' ≤ c ∧ c ≤ 'Z' then Char.ofNat (c.toNat + 32) else c

/-- Embedding of `str.upper` for one ASCII character. -/
def asciiUpperChar (c : Char) : Char :=
  if 'a' ≤ c ∧ c ≤ 'z' then Char.ofNat (c.toNat - 32) else c

/-- Embedding of `str.lower` (the inputs in this code base are ASCII). -/
def pyLower (s : String) : String :=
  ⟨s.data.map asciiLowerChar⟩

/-- Python whitespace stripped by `str.strip`. -/
def isPySpace (c : Char) : Bool :=
  c = ' ' ∨ c = '\t' ∨ c = '\n' ∨ c = '\r' ∨ c = '\x0b' ∨ c = '\x0c'

/-- Embedding of `str.strip` with no argument. -/
def pyStrip (s : String) : String :=
  ⟨((s.data.dropWhile isPySpace).reverse.dropWhile isPySpace).reverse⟩

/-- Embedding of `str.capitalize`: first character upper-cased, the rest
lower-cased. -/
def pyCapitalize (s : String) : String :=
  match s.data with
  | [] => ""
  | c :: cs => ⟨asciiUpperChar c :: cs.map asciiLowerChar⟩

/-! ## The device record

`provisioning` reads devices as plain dicts coming from
`SELECT * FROM devices` (discovery.py, `DevicesManager.read`).  The
fields accessed by the provisioning code (contract.py `_FLD_*`) are
embedded as a structure; dict reads on these keys are total because the
SQLite schema provides every column.  `ipResolv` embeds the extra key
`_FLD_IP = 'IPresolv'` that is only ever written in memory; `none`
means the key is absent. -/

structure Device where
  mac : String
  state : String
  level : Nat
  room_slug : String
  function : String
  position_slug : String
  firmware : String
  model : String
  interlock : String
  mode : String
  target : String
  extra : String
  mqtt : String
  hostname : String
  ha_device_class : Option String
  ipResolv : Option String
  deriving DecidableEq, Repr

/-! ## contract.py: constants and slug functions -/

def _STA_ENABLE : String := "Enable"
def _STA_DISABLE : String := "Disable"
def _STA_NA : String := "NA"

def _TOPIC_BASE : String := "Home"
def _TOPIC_LVL : String := "Lvl"

/-- contract.py `slug_device_name` (lines 40-48). -/
def slug_device_name (device : Device) : String :=
  pyCapitalize _TOPIC_BASE ++ " > "
    ++ pyCapitalize _TOPIC_LVL ++ toString device.level ++ " > "
    ++ pyCapitalize device.room_slug ++ " > "
    ++ pyCapitalize device.function ++ " > "
    ++ pyCapitalize device.position_slug

/-- contract.py `slug_device_topic_location` (lines 51-57). -/
def slug_device_topic_location (device : Device) : String :=
  pyLower (_TOPIC_BASE ++ "/l" ++ toString device.level ++ "/" ++ device.room_slug)

/-- contract.py `slug_device_topic_device` (lines 60-65). -/
def slug_device_topic_device (device : Device) : String :=
  pyLower ("/" ++ device.function ++ "/" ++ device.position_slug)

/-- contract.py `slug_device_topic` (lines 68-73). -/
def slug_device_topic (device : Device) : String :=
  pyLower (slug_device_topic_location device ++ slug_device_topic_device device)

/-! ## common.py: `FirmwareManagerBase` type/state check -/

/-- common.py `FirmwareManagerBase.is_enabled` (lines 19-26):
`device[_FLD_STATE] == _STA_ENABLE`. -/
def is_enabled (device : Device) : Bool :=
  device.state == _STA_ENABLE

/-- common.py `FirmwareManagerBase.is_same_type` (lines 28-35), with the
manager's `get_type()` string passed explicitly. -/
def is_same_type (t : String) (device : Device) : Bool :=
  device.firmware == t

/-- common.py `FirmwareManagerBase.is_found` (lines 16-17):
`is_same_type(device) and is_enabled(device)`. -/
def is_found_base (t : String) (device : Device) : Bool :=
  is_same_type t device && is_enabled device

/-! ## utility.py: `Sanitizer.entity_sanity` -/

/-- utility.py `Sanitizer.entity_sanity` (lines 35-40): writes
`device[_FLD_MAC] = str(mac).lower().strip()` and the same for
`_FLD_HOST`, in place. -/
def entity_sanity (device : Device) : Device :=
  { device with
      mac := pyStrip (pyLower device.mac),
      hostname := pyStrip (pyLower device.hostname) }

/-! ## Exceptions

Exceptions observable in the embedded fragment.  `nameError` is raised
by `success += 1` under `global success` in deploy.py when the
module-level name `success` is undefined; `typeError` by `len(None)`;
`deviceError` is utility.py's `DeviceError`; `attributeError` by
`None.update(...)`. -/

inductive PyExc where
  | nameError
  | typeError
  | deviceError
  | attributeError
  deriving DecidableEq, Repr

/-! ## Association lists as Python dicts

The MAC → IP cache is a Python dict; it is embedded as an association
list with Python-dict insertion semantics (replace in place if the key
exists, else append). -/

abbrev YDict := List (String × String)

/-- First-match lookup; on dicts built by `alistInsert` keys are unique,
so this is Python `d[k]` / `k in d`. -/
def alookup : YDict → String → Option String
  | [], _ => none
  | (k, v) :: rest, j => if k = j then some v else alookup rest j

/-- Python `d[k] = v`: replace the binding in place, else append. -/
def alistInsert : YDict → String → String → YDict
  | [], k, v => [(k, v)]
  | (k1, v1) :: rest, k, v =>
    if k1 = k then (k1, v) :: rest else (k1, v1) :: alistInsert rest k v

/-- Successive Python dict assignments of the entries of `u` into `b`
(the semantics of `dict.update` and of dict-comprehension building). -/
def foldInsert (b : YDict) (u : YDict) : YDict :=
  u.foldl (fun acc p => alistInsert acc p.1 p.2) b

/-- discovery.py line 55, the comprehension
`{str(mac).lower(): str(ip) for ip, mac in scan_result.items()}`:
`pairs` is the (ip, mac) item list of the parsed scan output. -/
def dictOfPairs (pairs : List (String × String)) : YDict :=
  foldInsert [] (pairs.map (fun p => (pyLower p.2, p.1)))

/-- Python `base.update(u)`. -/
def dictUpdate (base u : YDict) : YDict :=
  foldInsert base u

/-! ## tasmota.py / wled.py / zigbee.py: `is_found`

Each `is_found` may mutate the device dict (the `IPresolv` key) and may
raise; the returned `FoundOut` carries the match answer, the device
state after the call, and the exception if one was raised (in which
case `found` is meaningless). -/

structure FoundOut where
  found : Bool
  dev : Device
  exc : Option PyExc
  deriving DecidableEq, Repr

/-- tasmota.py `TasmotaManager.is_found` (lines 158-186): base
type-and-state check, then `mac and mac in macs`; if resolved, write
`device[_FLD_IP]`, ping once (`ping` is the external probe, true =
exit status 0), and raise `DeviceError` when the resolved address does
not answer. -/
def tasmota_is_found (macs : YDict) (ping : String → Bool) (device : Device) : FoundOut :=
  if is_found_base "Tasmota" device then
    if device.mac ≠ "" then
      match alookup macs device.mac with
      | some ip =>
        let dev1 := { device with ipResolv := some ip }
        if ping ip then ⟨true, dev1, none⟩
        else ⟨false, dev1, some .deviceError⟩
      | none => ⟨false, device, none⟩
    else ⟨false, device, none⟩
  else ⟨false, device, none⟩

/-- wled.py `WLEDManager.is_found` (lines 75-103): identical logic with
firmware type "WLED". -/
def wled_is_found (macs : YDict) (ping : String → Bool) (device : Device) : FoundOut :=
  if is_found_base "WLED" device then
    if device.mac ≠ "" then
      match alookup macs device.mac with
      | some ip =>
        let dev1 := { device with ipResolv := some ip }
        if ping ip then ⟨true, dev1, none⟩
        else ⟨false, dev1, some .deviceError⟩
      | none => ⟨false, device, none⟩
    else ⟨false, device, none⟩
  else ⟨false, device, none⟩

/-- zigbee.py line 111: `re.compile("^0x[0-9a-zA-Z]{16}$").match(ieee)`
as a boolean. -/
def zigbee_ieee_ok (s : String) : Bool :=
  match s.data with
  | '0' :: 'x' :: rest => rest.length = 16 && rest.all Char.isAlphanum
  | _ => false

/-- zigbee.py `ZigbeeManager.is_found` (lines 102-120): base check,
then the EUI-64 pattern on the MAC; no cache lookup, no liveness probe,
no mutation. -/
def zigbee_is_found (device : Device) : FoundOut :=
  if is_found_base "Zigbee" device then
    ⟨zigbee_ieee_ok device.mac, device, none⟩
  else ⟨false, device, none⟩

/-! ## deploy.py: the runner

Observable calls are recorded as events.  The constructors `processed`
and `postProcessed` exist because the spec talks about these calls, but
the source never performs them: the call `fwm.process(device)`
(deploy.py line 20) and the call `fwm.post_process()` (deploy.py line
54) are both commented out in the source, so no embedded code path
emits them. -/

inductive Event where
  | attempted (mac : String)
  | found (idx : Nat) (mac : String)
  | processed (idx : Nat) (mac : String)
  | postProcessed (idx : Nat)
  | errorLogged (mac : String)
  deriving DecidableEq, Repr

def isFoundEvent : Event → Bool
  | .found _ _ => true
  | _ => false

def isProcessedEvent : Event → Bool
  | .processed _ _ => true
  | _ => false

def isPostProcessedEvent : Event → Bool
  | .postProcessed _ => true
  | _ => false

def isErrorLoggedEvent : Event → Bool
  | .errorLogged _ => true
  | _ => false

/-- The mac of an `attempted` event (deploy.py line 44 logs each device
before handling it). -/
def attemptedMac : Event → Option String
  | .attempted m => some m
  | _ => none

/-- A firmware manager as seen by `base_config`: its `is_found` method.
The list of managers comes from `FirmwareFactory` (common.py 44-72),
which builds them from the `ENABLE_FIRMWARES` configuration; deploy is
parametric in that list. -/
abbrev PyHandler := Device → FoundOut

/-- Result of one `base_config` call: final device dict, final value of
the module-level global `success` (`none` = undefined name), raised
exception if any, and emitted events. -/
structure BCOut where
  dev : Device
  g : Option Nat
  exc : Option PyExc
  events : List Event
  deriving Repr

/-- deploy.py `base_config` loop (lines 16-22):
`for fwm in ff.get_firmware_managers(): if device[_FLD_MAC] and
fwm.is_found(device): success += 1; fwm_count += 1`.  The function
declares `global success` (line 11) but module deploy.py never defines
`success`, so the increment raises `NameError` whenever it is reached
with the global undefined (`g = none`).  The commented-out
`fwm.process(device)` call (line 20) emits nothing. -/
def base_config_loop : List PyHandler → Nat → Device → Option Nat → BCOut
  | [], _, dev, g => ⟨dev, g, none, []⟩
  | h :: rest, idx, dev, g =>
    if dev.mac ≠ "" then
      let o := h dev
      match o.exc with
      | some e => ⟨o.dev, g, some e, []⟩
      | none =>
        if o.found then
          match g with
          | none => ⟨o.dev, none, some .nameError, [.found idx o.dev.mac]⟩
          | some n =>
            let r := base_config_loop rest (idx + 1) o.dev (some (n + 1))
            ⟨r.dev, r.g, r.exc, .found idx o.dev.mac :: r.events⟩
        else
          base_config_loop rest (idx + 1) o.dev g
    else
      base_config_loop rest (idx + 1) dev g

/-- deploy.py `base_config` (lines 10-22): sanitize the device in
place, then run the manager loop. -/
def base_config (hs : List PyHandler) (dev : Device) (g : Option Nat) : BCOut :=
  base_config_loop hs 0 (entity_sanity dev) g

/-- Final tally of a run: deploy.py locals `count`, `success`, `error`
(lines 36-38) as reported by the closing log line (lines 56-58), the
final module-global, and the event trace. -/
structure RunOut where
  count : Nat
  success : Nat
  error : Nat
  g : Option Nat
  trace : List Event
  deriving Repr

/-- deploy.py device loop (lines 42-50): count each device, log it,
run `base_config` under `try`, and on any `Exception` log it and bump
`error`.  The local `success` (line 37) is never incremented anywhere
in `deploy`, so it stays 0: `base_config` increments the module-level
global instead, which is undefined. -/
def deployLoop (hs : List PyHandler) : List Device → Option Nat → RunOut
  | [], g => ⟨0, 0, 0, g, []⟩
  | d :: rest, g =>
    let b := base_config hs d g
    let r := deployLoop hs rest b.g
    match b.exc with
    | some _ =>
      ⟨r.count + 1, r.success, r.error + 1, r.g,
        .attempted d.mac :: (b.events ++ (.errorLogged d.mac :: r.trace))⟩
    | none =>
      ⟨r.count + 1, r.success, r.error, r.g,
        .attempted d.mac :: (b.events ++ r.trace)⟩

/-- deploy.py `deploy` (lines 28-58): the device loop followed by the
post-process loop over managers (lines 52-54), which only logs — the
call `fwm.post_process()` is commented out, so the loop emits no
events.  The module-global `success` starts undefined. -/
def deploy (hs : List PyHandler) (devs : List Device) : RunOut :=
  deployLoop hs devs none

/-! ## tasmota.py / wled.py: per-call retry loops

Each loop runs `for i in range(bound)` around one network call; on
`requests.exceptions.ConnectionError` it sleeps 1.5 s, and raises
`DeviceError('Dead device ?!')` when `i == raiseAt`.  `fails i` says
whether attempt `i` raises `ConnectionError` (true) or succeeds, in
which case the loop breaks. -/

structure RetryResult where
  attempts : Nat
  sleeps : Nat
  raised : Bool
  deriving DecidableEq, Repr

def retryGo (raiseAt : Nat) (fails : Nat → Bool) : Nat → Nat → RetryResult
  | _, 0 => ⟨0, 0, false⟩
  | i, fuel + 1 =>
    if fails i then
      if i = raiseAt then ⟨1, 1, true⟩
      else
        let r := retryGo raiseAt fails (i + 1) fuel
        ⟨r.attempts + 1, r.sleeps + 1, r.raised⟩
    else ⟨1, 0, false⟩

/-- `for i in range(bound)` with a raise when `i == raiseAt` after a
failed attempt; falls through without raising when the range is
exhausted first. -/
def retry_loop (bound raiseAt : Nat) (fails : Nat → Bool) : RetryResult :=
  retryGo raiseAt fails 0 bound

def NUM_RETRY : Nat := 3

/-- tasmota.py `dump_config` (lines 230-244): `range(NUM_RETRY)` with
`if i == NUM_RETRY: raise`. -/
def tasmota_dump_config_retry (fails : Nat → Bool) : RetryResult :=
  retry_loop NUM_RETRY NUM_RETRY fails

/-- tasmota.py `send_cmnds` (lines 268-279): `range(NUM_RETRY + 1)`
with `if i == NUM_RETRY: raise`. -/
def tasmota_send_cmnds_retry (fails : Nat → Bool) : RetryResult :=
  retry_loop (NUM_RETRY + 1) NUM_RETRY fails

/-- wled.py `dump_config` (lines 143-158), `send_cfg` (165-178) and
`upload_presets` (188-203): `range(NUM_RETRY)` with
`if i == NUM_RETRY - 1: raise`. -/
def wled_retry (fails : Nat → Bool) : RetryResult :=
  retry_loop NUM_RETRY (NUM_RETRY - 1) fails

/-! ## discovery.py: `CacheManager`

The persisted cache file is a YAML document; its parse result is
embedded as `FileYaml`.  `__macs_c` is a Python attribute holding
either a dict or `None` (`MacsC`). -/

inductive FileYaml where
  /-- `os.path.isfile` is false. -/
  | missing
  /-- contents raise `yaml.YAMLError` on parse. -/
  | invalid
  /-- contents parse to `None` (e.g. an empty file). -/
  | null
  /-- contents parse to a mapping. -/
  | mapping (m : YDict)
  deriving DecidableEq, Repr

abbrev MacsC := Option YDict

/-- Outcome of running the scan script (discovery.py lines 39-54):
exit status, then parse, then the dict check; `ok pairs` carries the
`(ip, mac)` item list of the parsed mapping. -/
inductive ScanOutcome where
  | nonZeroExit
  | yamlError
  | notADict
  | ok (pairs : List (String × String))
  deriving DecidableEq, Repr

/-- discovery.py `CacheManager.load_dict` (lines 21-29): a missing file
leaves `__macs_c` as is; a parse error is caught and logged; a file
parsing to `None` assigns `None` and then `len(self.__macs_c)` on line
27 raises an uncaught `TypeError` (only `yaml.YAMLError` is handled).
Returns the new `__macs_c` and the raised exception if any. -/
def load_dict (file : FileYaml) (cur : MacsC) : MacsC × Option PyExc :=
  match file with
  | .missing => (cur, none)
  | .invalid => (cur, none)
  | .null => (none, some .typeError)
  | .mapping m => (some m, none)

/-- Result of `make_dict`: in-memory `__macs_c`, the mapping written
back to the cache file (`none` = the file was not rewritten), and the
escaped exception if any. -/
structure CacheOut where
  macs : MacsC
  written : Option YDict
  exc : Option PyExc
  deriving DecidableEq, Repr

/-- discovery.py `CacheManager.make_dict` (lines 31-67): reload from
the file, then fail soft on an unconfigured script (line 34), a
non-zero exit (line 44), a parse error (line 56) or a non-dict parse
(line 52); on success merge `{str(mac).lower(): str(ip)}` for the
scanned items into `__macs_c` and persist the merged dict (write
errors on line 64 are caught, the attempted content is recorded). -/
def make_dict (file : FileYaml) (cur : MacsC) (script : Option String)
    (scan : ScanOutcome) : CacheOut :=
  match load_dict file cur with
  | (c1, some e) => ⟨c1, none, some e⟩
  | (c1, none) =>
    match script with
    | none => ⟨c1, none, none⟩
    | some _ =>
      match scan with
      | .nonZeroExit => ⟨c1, none, none⟩
      | .yamlError => ⟨c1, none, none⟩
      | .notADict => ⟨c1, none, none⟩
      | .ok pairs =>
        match c1 with
        | none => ⟨none, none, some .attributeError⟩
        | some cur1 =>
          let merged := dictUpdate cur1 (dictOfPairs pairs)
          ⟨some merged, some merged, none⟩

/-- The in-memory mapping `load_dict` produces from a well-formed prior
state (missing file or a file parsing to a mapping), starting from the
class-level initial `__macs_c = {}` (discovery.py line 16). -/
def loadedOf (file : FileYaml) : YDict :=
  match file with
  | .mapping m => m
  | _ => []

/-- discovery.py `GlobalManager.__init__` (lines 102-107) followed by
the deploy run: `CacheManager.make_dict` runs first (with the fresh
class-level `__macs_c = {}`); an exception escaping it aborts the run
(deploy.py line 33 has no handler around `GlobalManager()`).
`DevicesManager.read` swallows `sqlite3.Error`, so it contributes no
abort. -/
def full_run (file : FileYaml) (script : Option String) (scan : ScanOutcome)
    (hs : List PyHandler) (devs : List Device) : Except PyExc RunOut :=
  match (make_dict file (some []) script scan).exc with
  | some e => .error e
  | none => .ok (deploy hs devs)

/-! ## Concrete sample inputs

A matched, enabled, cached and answering Tasmota device, run under the
default handler set (`ENABLE_FIRMWARES = ['tasmota', 'zigbee', 'wled']`,
common.py lines 50-69, in registration order Tasmota, Zigbee, WLED). -/

def dev0 : Device :=
  { mac := "AA:BB:CC:DD:EE:01", state := "Enable", level := 0,
    room_slug := "office", function := "Button", position_slug := "desk",
    firmware := "Tasmota", model := "Athom Mini Relay V2", interlock := "",
    mode := "standard", target := "None", extra := "",
    mqtt := "home/l0/office/button/desk", hostname := "l0_office_button_desk",
    ha_device_class := none, ipResolv := none }

def macs0 : YDict := [("aa:bb:cc:dd:ee:01", "192.168.0.50")]

/-- External liveness probe that always answers. -/
def ping0 : String → Bool := fun _ => true

def handlers0 : List PyHandler :=
  [tasmota_is_found macs0 ping0, zigbee_is_found, wled_is_found macs0 ping0]

/-- The run of `deploy` on the single matched device. -/
def run0 : RunOut := deploy handlers0 [dev0]

/-- A firmware-matching device in the hot-enabled state. -/
def devHot : Device := { dev0 with state := "Enable-Hot" }

/-! ## Claim theorems -/

/-- The record fixed by the spec's slug example: mac
"AA:BB:CC:DD:EE:01", level 0, room_slug "office", function "button",
position_slug "desk" (all lower-case slugs). -/
def dev9 : Device :=
  { mac := "AA:BB:CC:DD:EE:01", state := "Enable", level := 0,
    room_slug := "office", function := "button", position_slug := "desk",
    firmware := "Tasmota", model := "Athom Mini Relay V2", interlock := "",
    mode := "standard", target := "None", extra := "",
    mqtt := "home/l0/office/button/desk", hostname := "l0_office_button_desk",
    ha_device_class := none, ipResolv := none }

/-- C9: for the device record with level 0, room_slug "office",
function "button", position_slug "desk", the derived topic is
"home/l0/office/button/desk" and the derived slug name is
"Home > Lvl0 > Office > Button > Desk" (each segment capitalized from
its lower-case slug). -/
theorem claim_C9 :
    slug_device_topic dev9 = "home/l0/office/button/desk" ∧
    slug_device_name dev9 = "Home > Lvl0 > Office > Button > Desk" := by
  constructor <;> decide

/-- C3 counterexample: the claim says a firmware-matching device in
state "Enable-Hot" is enabled and therefore matched, but
`is_found` returns false for it: `is_enabled` compares to the exact
string "Enable" only. -/
theorem claim_C3_counterexample :
    is_same_type "Tasmota" devHot = true ∧ is_found_base "Tasmota" devHot = false := by
  constructor <;> decide

/-- C3 amended: `matches()` returns true exactly when the device's
Firmware equals the handler's type name and the State field is the
single enabled vocabulary entry "Enable"; every other State value
(including "Enable-Hot", "Disable", "NA", "KO" or anything
unrecognized) yields false regardless of firmware. -/
theorem claim_C3 (t : String) (device : Device) :
    is_found_base t device = true ↔ (device.firmware = t ∧ device.state = "Enable") := by
  simp [is_found_base, is_same_type, is_enabled, _STA_ENABLE,
    Bool.and_eq_true, beq_iff_eq]

/-- C4: evaluating the three retry loops when every attempt fails with
a connection error.  Tasmota `dump_config` performs its 3 attempts and
then returns normally without raising (its raise guard `i == NUM_RETRY`
never holds inside `range(NUM_RETRY)`); Tasmota `send_cmnds` performs
4 attempts before raising; only the WLED loops perform exactly 3
attempts and then raise, as the claim states for all of them. -/
theorem claim_C4 :
    tasmota_dump_config_retry (fun _ => true) = ⟨3, 3, false⟩ ∧
    tasmota_send_cmnds_retry (fun _ => true) = ⟨4, 4, true⟩ ∧
    wled_retry (fun _ => true) = ⟨3, 3, true⟩ := by
  refine ⟨?_, ?_, ?_⟩ <;> decide

/-- C1: on a run whose single device has a non-empty MAC and is matched
by the registered Tasmota handler (`is_found` true: type and state
match, the MAC resolves in the cache and the device answers the ping),
the runner emits the match but never invokes `process` — the call is
commented out in `base_config` — and the device ends up counted as an
error (the success-counter increment raises `NameError`). -/
theorem claim_C1 :
    run0.trace.countP isFoundEvent = 1 ∧
    run0.trace.countP isProcessedEvent = 0 ∧
    run0.error = 1 := by
  refine ⟨?_, ?_, ?_⟩ <;> decide

/-- C6: the reported tally of the run on one successfully matched,
live device is total 1, success 0, error 1: the success counter the
runner prints is a local that is never incremented (`base_config`
increments an undefined module-level global instead, raising
`NameError`), so the matched device is counted as an error. -/
theorem claim_C6 :
    run0.count = 1 ∧ run0.success = 0 ∧ run0.error = 1 := by
  refine ⟨?_, ?_, ?_⟩ <;> decide

/-- C8 counterexample: the per-device pipeline mutates the MAC field of
the record: `Sanitizer.entity_sanity`, invoked at the top of
`base_config`, rewrites `device['mac']` to its lower-cased stripped
form, so the MAC does not hold the same value afterwards. -/
theorem claim_C8_counterexample :
    (base_config handlers0 dev0 none).dev.mac = "aa:bb:cc:dd:ee:01" ∧
    dev0.mac = "AA:BB:CC:DD:EE:01" := by
  constructor <;> decide

/-- C10: a cache file that parses to YAML null makes `load_dict` set
the cached mapping to Python None and then raise an uncaught
`TypeError` (only `yaml.YAMLError` is handled), aborting the whole run
at `GlobalManager` construction; a missing cache file instead yields
the empty mapping with no error. -/
theorem claim_C10 (script : Option String) (scan : ScanOutcome)
    (hs : List PyHandler) (devs : List Device) :
    full_run FileYaml.null script scan hs devs = Except.error PyExc.typeError ∧
    load_dict FileYaml.null (some []) = (none, some PyExc.typeError) ∧
    load_dict FileYaml.missing (some []) = (some [], none) :=
  ⟨rfl, rfl, rfl⟩

/-! ## Frame preservation of the device record -/

/-- All device fields except the in-memory `IPresolv` annotation agree. -/
def framePreservedExceptIp (a b : Device) : Prop :=
  a.mac = b.mac ∧ a.state = b.state ∧ a.level = b.level ∧ a.room_slug = b.room_slug ∧
  a.function = b.function ∧ a.position_slug = b.position_slug ∧ a.firmware = b.firmware ∧
  a.model = b.model ∧ a.interlock = b.interlock ∧ a.mode = b.mode ∧ a.target = b.target ∧
  a.extra = b.extra ∧ a.mqtt = b.mqtt ∧ a.hostname = b.hostname ∧
  a.ha_device_class = b.ha_device_class

/-- C8 amended: the provisioning core mutates exactly the MAC and
hostname fields (normalized in place by `Sanitizer.entity_sanity` to
their lower-cased, stripped forms) and the resolved-IP annotation
(written by the IP-based `is_found` checks); every other field of the
record is left unchanged by the per-device pipeline. -/
theorem claim_C8 (d : Device) (macs : YDict) (ping : String → Bool) :
    ((entity_sanity d).state = d.state ∧ (entity_sanity d).level = d.level ∧
     (entity_sanity d).room_slug = d.room_slug ∧ (entity_sanity d).function = d.function ∧
     (entity_sanity d).position_slug = d.position_slug ∧
     (entity_sanity d).firmware = d.firmware ∧ (entity_sanity d).model = d.model ∧
     (entity_sanity d).interlock = d.interlock ∧ (entity_sanity d).mode = d.mode ∧
     (entity_sanity d).target = d.target ∧ (entity_sanity d).extra = d.extra ∧
     (entity_sanity d).mqtt = d.mqtt ∧
     (entity_sanity d).ha_device_class = d.ha_device_class ∧
     (entity_sanity d).ipResolv = d.ipResolv ∧
     (entity_sanity d).mac = pyStrip (pyLower d.mac) ∧
     (entity_sanity d).hostname = pyStrip (pyLower d.hostname)) ∧
    framePreservedExceptIp (tasmota_is_found macs ping d).dev d ∧
    framePreservedExceptIp (wled_is_found macs ping d).dev d ∧
    framePreservedExceptIp (zigbee_is_found d).dev d := by
  refine ⟨?_, ?_, ?_, ?_⟩
  · simp [entity_sanity]
  · unfold tasmota_is_found
    (repeat' split) <;> simp [framePreservedExceptIp]
  · unfold wled_is_found
    (repeat' split) <;> simp [framePreservedExceptIp]
  · unfold zigbee_is_found
    (repeat' split) <;> simp [framePreservedExceptIp]

/-! ## Runner trace lemmas -/

theorem bc_events_found (hs : List PyHandler) : ∀ idx dev g e,
    e ∈ (base_config_loop hs idx dev g).events → isFoundEvent e = true := by
  induction hs with
  | nil => intro idx dev g e he; simp [base_config_loop] at he
  | cons h rest ih =>
    intro idx dev g e he
    simp only [base_config_loop] at he
    split at he
    · split at he
      · simp at he
      · split at he
        · split at he
          · simp at he; subst he; rfl
          · simp at he
            rcases he with he | he
            · subst he; rfl
            · exact ih _ _ _ _ he
        · exact ih _ _ _ _ he
    · exact ih _ _ _ _ he

theorem bc_filterMap_attempted (hs : List PyHandler) (idx : Nat) (dev : Device)
    (g : Option Nat) :
    (base_config_loop hs idx dev g).events.filterMap attemptedMac = [] := by
  rw [List.filterMap_eq_nil_iff]
  intro e he
  have hf := bc_events_found hs idx dev g e he
  cases e <;> simp_all [isFoundEvent, attemptedMac]

theorem bc_countP_errorLogged (hs : List PyHandler) (idx : Nat) (dev : Device)
    (g : Option Nat) :
    (base_config_loop hs idx dev g).events.countP isErrorLoggedEvent = 0 := by
  rw [List.countP_eq_zero]
  intro e he
  have hf := bc_events_found hs idx dev g e he
  cases e <;> simp_all [isFoundEvent, isErrorLoggedEvent]

theorem bc_countP_postProcessed (hs : List PyHandler) (idx : Nat) (dev : Device)
    (g : Option Nat) :
    (base_config_loop hs idx dev g).events.countP isPostProcessedEvent = 0 := by
  rw [List.countP_eq_zero]
  intro e he
  have hf := bc_events_found hs idx dev g e he
  cases e <;> simp_all [isFoundEvent, isPostProcessedEvent]

theorem deployLoop_count (hs : List PyHandler) (devs : List Device) : ∀ g,
    (deployLoop hs devs g).count = devs.length := by
  induction devs with
  | nil => intro g; rfl
  | cons d rest ih =>
    intro g
    simp only [deployLoop]
    split <;> simp [ih]

theorem deployLoop_attempted (hs : List PyHandler) (devs : List Device) : ∀ g,
    (deployLoop hs devs g).trace.filterMap attemptedMac = devs.map Device.mac := by
  induction devs with
  | nil => intro g; rfl
  | cons d rest ih =>
    intro g
    simp only [deployLoop]
    split <;>
      simp [List.filterMap_cons, List.filterMap_append, attemptedMac, ih,
        base_config, bc_filterMap_attempted]

theorem deployLoop_error_eq (hs : List PyHandler) (devs : List Device) : ∀ g,
    (deployLoop hs devs g).error = (deployLoop hs devs g).trace.countP isErrorLoggedEvent := by
  induction devs with
  | nil => intro g; rfl
  | cons d rest ih =>
    intro g
    simp only [deployLoop]
    split <;>
      simp [List.countP_cons, List.countP_append, isErrorLoggedEvent, ih,
        base_config, bc_countP_errorLogged]

theorem deployLoop_postProcessed (hs : List PyHandler) (devs : List Device) : ∀ g,
    (deployLoop hs devs g).trace.countP isPostProcessedEvent = 0 := by
  induction devs with
  | nil => intro g; rfl
  | cons d rest ih =>
    intro g
    simp only [deployLoop]
    split <;>
      simp [List.countP_cons, List.countP_append, isPostProcessedEvent, ih,
        base_config, bc_countP_postProcessed]

/-- C5: for every run, regardless of what the per-device handling does
(any handler behavior, raising included), the runner attempts every
device of the inventory in order — the attempted-device trace equals
the inventory — counts every device, and its error counter equals the
number of exceptions logged at the runner boundary; `deploy` is a
total function of its inputs, so nothing raised during one device's
handling aborts the run. -/
theorem claim_C5 (hs : List PyHandler) (devs : List Device) :
    (deploy hs devs).count = devs.length ∧
    (deploy hs devs).trace.filterMap attemptedMac = devs.map Device.mac ∧
    (deploy hs devs).error = (deploy hs devs).trace.countP isErrorLoggedEvent :=
  ⟨deployLoop_count hs devs none, deployLoop_attempted hs devs none,
    deployLoop_error_eq hs devs none⟩

/-- C2: no run ever emits a `postProcess` call on any handler: the
call `fwm.post_process()` in deploy.py's closing loop is commented
out, so the count of post-process invocations in every run trace is 0,
not one per registered handler as the claim states. -/
theorem claim_C2 (hs : List PyHandler) (devs : List Device) :
    (deploy hs devs).trace.countP isPostProcessedEvent = 0 :=
  deployLoop_postProcessed hs devs none

/-! ## Dict-merge lemmas for the cache refresh -/

/-- Left-biased choice on options. -/
def orElseOpt (a b : Option String) : Option String :=
  match a with
  | some x => some x
  | none => b

/-- Lookup of the last binding of a key (later entries win, as in
successive Python dict assignments). -/
def lastLookup : YDict → String → Option String
  | [], _ => none
  | (k, v) :: rest, j => orElseOpt (lastLookup rest j) (if k = j then some v else none)

theorem alookup_insert (m : YDict) (k v j : String) :
    alookup (alistInsert m k v) j = if k = j then some v else alookup m j := by
  induction m with
  | nil => simp [alistInsert, alookup]
  | cons p rest ih =>
    obtain ⟨k1, v1⟩ := p
    by_cases h1 : k1 = k
    · subst h1
      by_cases h2 : k1 = j <;> simp [alistInsert, alookup, h2]
    · by_cases h2 : k1 = j
      · subst h2
        have h3 : ¬(k = k1) := fun hh => h1 hh.symm
        simp [alistInsert, alookup, h1, h3]
      · simp [alistInsert, alookup, h1, h2, ih]

theorem alookup_foldInsert (u : YDict) : ∀ (b : YDict) (j : String),
    alookup (foldInsert b u) j = orElseOpt (lastLookup u j) (alookup b j) := by
  induction u with
  | nil => intro b j; rfl
  | cons p u1 ih =>
    obtain ⟨k, v⟩ := p
    intro b j
    have h1 : foldInsert b ((k, v) :: u1) = foldInsert (alistInsert b k v) u1 := rfl
    rw [h1, ih, alookup_insert]
    cases hl : lastLookup u1 j with
    | some w => simp [lastLookup, orElseOpt, hl]
    | none => by_cases hk : k = j <;> simp [lastLookup, orElseOpt, hl, hk]

theorem lastLookup_eq_none (u : YDict) (j : String) (h : j ∉ u.map Prod.fst) :
    lastLookup u j = none := by
  induction u with
  | nil => rfl
  | cons p u1 ih =>
    obtain ⟨k, v⟩ := p
    simp only [List.map_cons, List.mem_cons] at h
    push_neg at h
    have hk : ¬(k = j) := fun hh => h.1 hh.symm
    simp [lastLookup, orElseOpt, ih h.2, hk]

theorem lastLookup_mem (u : YDict) : ∀ (j v : String),
    (u.map Prod.fst).Nodup → (j, v) ∈ u → lastLookup u j = some v := by
  induction u with
  | nil => intro j v _ hm; cases hm
  | cons p u1 ih =>
    obtain ⟨k, w⟩ := p
    intro j v hnd hm
    simp only [List.map_cons, List.nodup_cons] at hnd
    rcases List.mem_cons.mp hm with heq | hmem
    · have hj : j = k := congrArg Prod.fst heq
      have hv : v = w := congrArg Prod.snd heq
      rw [hj, hv]
      simp [lastLookup, orElseOpt, lastLookup_eq_none u1 k hnd.1]
    · simp [lastLookup, orElseOpt, ih j v hnd.2 hmem]

theorem alistInsert_notmem (b : YDict) (k v : String) (h : k ∉ b.map Prod.fst) :
    alistInsert b k v = b ++ [(k, v)] := by
  induction b with
  | nil => rfl
  | cons p rest ih =>
    obtain ⟨k1, v1⟩ := p
    simp only [List.map_cons, List.mem_cons] at h
    push_neg at h
    have hk : ¬(k1 = k) := fun hh => h.1 hh.symm
    simp [alistInsert, hk, ih h.2]

theorem foldInsert_nodup (u : YDict) : ∀ b : YDict,
    (u.map Prod.fst).Nodup →
    (∀ x ∈ u.map Prod.fst, x ∉ b.map Prod.fst) →
    foldInsert b u = b ++ u := by
  induction u with
  | nil => intro b _ _; simp [foldInsert]
  | cons p u1 ih =>
    obtain ⟨k, v⟩ := p
    intro b hnd hdisj
    simp only [List.map_cons, List.nodup_cons] at hnd
    have hk : k ∉ b.map Prod.fst := hdisj k (by simp)
    have h1 : foldInsert b ((k, v) :: u1) = foldInsert (alistInsert b k v) u1 := rfl
    rw [h1, alistInsert_notmem b k v hk, ih (b ++ [(k, v)]) hnd.2]
    · simp
    · intro x hx
      simp only [List.map_append, List.mem_append]
      rintro (hxb | hxk)
      · exact hdisj x (by simp [hx]) hxb
      · simp at hxk
        rw [hxk] at hx
        exact hnd.1 hx

theorem dictOfPairs_nodup (pairs : List (String × String))
    (h : (pairs.map (fun p => pyLower p.2)).Nodup) :
    dictOfPairs pairs = pairs.map (fun p => (pyLower p.2, p.1)) := by
  have hkeys : (pairs.map (fun p => (pyLower p.2, p.1))).map Prod.fst
      = pairs.map (fun p => pyLower p.2) := by
    simp [List.map_map, Function.comp]
  have hfold := foldInsert_nodup (pairs.map (fun p => (pyLower p.2, p.1))) []
    (by rw [hkeys]; exact h) (by simp)
  simpa [dictOfPairs] using hfold

/-- C7: cache refresh fails soft — with an unconfigured scan script, a
non-zero script exit, unparsable output or a non-mapping parse it
raises nothing and rewrites nothing, leaving the in-memory mapping as
loaded from the prior file; on a successful scan it merges
`{lowercase(mac): ip}` for each scanned (ip, mac) item into the loaded
mapping (additively: keys absent from the scan keep their prior value)
and persists exactly the merged mapping. -/
theorem claim_C7 (file : FileYaml) (script : Option String) (scan : ScanOutcome)
    (hfile : file = FileYaml.missing ∨ ∃ m, file = FileYaml.mapping m) :
    ((script = none ∨ scan = ScanOutcome.nonZeroExit ∨ scan = ScanOutcome.yamlError ∨
        scan = ScanOutcome.notADict) →
      (make_dict file (some []) script scan).exc = none ∧
      (make_dict file (some []) script scan).written = none ∧
      (make_dict file (some []) script scan).macs = some (loadedOf file)) ∧
    (∀ (pairs : List (String × String)) (s : String),
      script = some s → scan = ScanOutcome.ok pairs →
      (pairs.map (fun p => pyLower p.2)).Nodup →
      (make_dict file (some []) script scan).exc = none ∧
      (make_dict file (some []) script scan).macs
        = some (dictUpdate (loadedOf file) (dictOfPairs pairs)) ∧
      (make_dict file (some []) script scan).written
        = some (dictUpdate (loadedOf file) (dictOfPairs pairs)) ∧
      (∀ ip mac, (ip, mac) ∈ pairs →
        alookup (dictUpdate (loadedOf file) (dictOfPairs pairs)) (pyLower mac) = some ip) ∧
      (∀ k, k ∉ pairs.map (fun p => pyLower p.2) →
        alookup (dictUpdate (loadedOf file) (dictOfPairs pairs)) k
          = alookup (loadedOf file) k)) := by
  constructor
  · intro hd
    rcases hd with h | h | h | h <;> rw [h] <;>
      rcases hfile with hf | ⟨m, hf⟩ <;> rw [hf] <;>
      first
        | exact ⟨rfl, rfl, rfl⟩
        | (cases script <;> exact ⟨rfl, rfl, rfl⟩)
  · intro pairs s hscr hscan hnd
    rw [hscr, hscan]
    have hkeys : (pairs.map (fun p => (pyLower p.2, p.1))).map Prod.fst
        = pairs.map (fun p => pyLower p.2) := by
      simp [List.map_map, Function.comp]
    have hmain : ∀ loaded : YDict,
        (∀ ip mac, (ip, mac) ∈ pairs →
          alookup (dictUpdate loaded (dictOfPairs pairs)) (pyLower mac) = some ip) ∧
        (∀ k, k ∉ pairs.map (fun p => pyLower p.2) →
          alookup (dictUpdate loaded (dictOfPairs pairs)) k = alookup loaded k) := by
      intro loaded
      constructor
      · intro ip mac hm
        rw [dictUpdate, alookup_foldInsert, dictOfPairs_nodup pairs hnd]
        have hmem : (pyLower mac, ip) ∈ pairs.map (fun p => (pyLower p.2, p.1)) :=
          List.mem_map_of_mem (fun p => (pyLower p.2, p.1)) hm
        rw [lastLookup_mem _ (pyLower mac) ip (by rw [hkeys]; exact hnd) hmem]
        rfl
      · intro k hk
        rw [dictUpdate, alookup_foldInsert, dictOfPairs_nodup pairs hnd]
        rw [lastLookup_eq_none _ k (by rw [hkeys]; exact hk)]
        rfl
    rcases hfile with hf | ⟨m, hf⟩ <;> rw [hf] <;>
      exact ⟨rfl, rfl, rfl, (hmain _).1, (hmain _).2⟩

/-- C7 witness: refreshing from a prior cache file holding the mapping
from "aa" to "1.1.1.1", with a configured script whose scan reports
the pair (ip "2.2.2.2", mac "BB"), raises nothing, merges the entry
under the lower-cased mac "bb", and keeps the prior entry for "aa". -/
theorem claim_C7_witness :
    (make_dict (FileYaml.mapping [("aa", "1.1.1.1")]) (some []) (some "scan.sh")
      (ScanOutcome.ok [("2.2.2.2", "BB")])).exc = none ∧
    alookup (dictUpdate (loadedOf (FileYaml.mapping [("aa", "1.1.1.1")]))
      (dictOfPairs [("2.2.2.2", "BB")])) (pyLower "BB") = some "2.2.2.2" ∧
    alookup (dictUpdate (loadedOf (FileYaml.mapping [("aa", "1.1.1.1")]))
      (dictOfPairs [("2.2.2.2", "BB")])) "aa" = some "1.1.1.1" := by
  have h := (claim_C7 (FileYaml.mapping [("aa", "1.1.1.1")]) (some "scan.sh")
    (ScanOutcome.ok [("2.2.2.2", "BB")]) (Or.inr ⟨_, rfl⟩)).2
    [("2.2.2.2", "BB")] "scan.sh" rfl rfl (by decide)
  refine ⟨h.1, h.2.2.2.1 "2.2.2.2" "BB" (by decide), ?_⟩
  have := h.2.2.2.2 "aa" (by decide)
  rw [this]
  decide

end DeviceManager
